import Mathlib

/-!
# Catalog Query & Similarity Engine — verification of `src/app.py`

Shallow embedding of the perfume-catalog Flask application (`app.py`).
The request/transport layer is out of scope; endpoints are modelled as
functions taking already-parsed, typed arguments.  pandas DataFrames are
modelled as Lean lists of `Row`; `NaN` cells as `Option.none`; the dynamic
column set `df.columns` as a `List String` carried in the engine state.

Python string operations (`str.strip`, `str.lower`, `str.split(",")`,
the substring test of `Series.str.contains`) are modelled by structurally
recursive functions over `List Char` so that all of them evaluate inside
the kernel.  `str.lower()` is modelled on the ASCII range, which covers
the catalog data relevant here.
-/

/-- Whitespace predicate used by `str.strip()` (ASCII relevant subset). -/
def isWS (c : Char) : Bool := c = ' ' || c = '\t' || c = '\n' || c = '\r'

/-- ASCII lower-casing of one character (model of Python `str.lower` per char). -/
def toLowerChar (c : Char) : Char :=
  if 65 ≤ c.toNat ∧ c.toNat ≤ 90 then Char.ofNat (c.toNat + 32) else c

/-- Model of Python `s.lower()`. -/
def lowerStr (s : String) : String := ⟨s.data.map toLowerChar⟩

/-- Model of Python `s.strip()`. -/
def trimStr (s : String) : String :=
  ⟨((s.data.dropWhile isWS).reverse.dropWhile isWS).reverse⟩

/-- Model of Python `s.split(",")` on the character list;
`"".split(",") = [""]`, hence the `[[]]` base case. -/
def splitOnCommaChars : List Char → List (List Char)
  | [] => [[]]
  | c :: cs =>
    match splitOnCommaChars cs with
    | [] => [[c]]
    | t :: ts => if c = ',' then [] :: t :: ts else (c :: t) :: ts

/-- Model of Python `s.split(",")`. -/
def splitOnComma (s : String) : List String :=
  (splitOnCommaChars s.data).map (fun l => ⟨l⟩)

/-- `startWithChars pat l`: does `l` start with `pat`? -/
def startWithChars : List Char → List Char → Bool
  | [], _ => true
  | _ :: _, [] => false
  | p :: ps, c :: cs => p == c && startWithChars ps cs

/-- `containChars l pat`: does `pat` occur contiguously inside `l`?
(Model of the Python substring test `pat in l`.) -/
def containChars : List Char → List Char → Bool
  | [], pat => pat.isEmpty
  | l@(_ :: cs), pat => startWithChars pat l || containChars cs pat

/-- Case-insensitive substring test: model of
`Series.str.contains(needle, case=False)` for needles without regex
metacharacters (the engine passes user terms straight through; the spec
describes the filter as a plain substring match). -/
def containsCI (hay needle : String) : Bool :=
  containChars (hay.data.map toLowerChar) (needle.data.map toLowerChar)

/-- Lexicographic `≤` on character lists, the order Python `sorted` uses
on strings (by code point). -/
def charsLe : List Char → List Char → Bool
  | [], _ => true
  | _ :: _, [] => false
  | a :: as, b :: bs => a < b || (a == b && charsLe as bs)

/-- One catalog row, with the columns `app.py` exposes/reads
(`CAMPOS_VALIDOS` plus the three note fields).  `none` models a missing
column or a `NaN` cell — `extraer_notas` skips the field in both cases
(`campo in df.columns and pd.notna(...)`).  `main_accords` is the derived
list built at load time from the `mainaccord*` columns
(non-NaN, non-blank values, kept verbatim, in column order). -/
structure Row where
  url : Option String := none
  perfume : Option String := none
  marca : Option String := none
  genero : Option String := none
  anio : Option String := none   -- the source column named "año"
  salida : Option String := none
  corazon : Option String := none
  base : Option String := none
  perfumista : Option String := none
  main_accords : List String := []
deriving DecidableEq, Repr

/-- `df[col].astype(str)` on one cell: pandas renders `NaN` as `"nan"`. -/
def strCell (o : Option String) : String := o.getD "nan"

/-- Note tokens contributed by one of the fields `salida`/`corazon`/`base`:
`[n.strip().lower() for n in str(row[campo]).split(',')]` when the column
exists and the cell is not NaN, else nothing. -/
def splitNotes : Option String → List String
  | none => []
  | some s => (splitOnComma s).map (fun n => lowerStr (trimStr n))

/-- `extraer_notas(row)` from `app.py`: tokens from the three note fields,
plus the `main_accords` entries lowered (not stripped), deduplicated
(`list(set(notas))`; the Python set's iteration order is irrelevant to
every use, which is membership-based, so we keep first occurrences). -/
def extraer_notas (r : Row) : List String :=
  (splitNotes r.salida ++ splitNotes r.corazon ++ splitNotes r.base
    ++ r.main_accords.map lowerStr).dedup

/-- Insertion of `x` into `l`, stable in front of equal elements
(`le x y = true` keeps `x` first). -/
def insertLe (le : α → α → Bool) (x : α) : List α → List α
  | [] => [x]
  | y :: ys => if le x y then x :: y :: ys else y :: insertLe le x ys

/-- Stable insertion sort, ascending w.r.t. `le`. -/
def isortLe (le : α → α → Bool) : List α → List α
  | [] => []
  | x :: xs => insertLe le x (isortLe le xs)

/-- `VOCAB`: `sorted({n for notas in df['todas_notas'] for n in notas})` —
the lexicographically sorted set of all note tokens of the catalog. -/
def VOCAB (rows : List Row) : List String :=
  isortLe (fun a b => charsLe a.data b.data) ((rows.map extraer_notas).flatten).dedup

/-- `vectorizar_notas(notas, vocab)`: binary presence vector. -/
def vectorizar_notas (notas : List String) (vocab : List String) : List ℕ :=
  vocab.map (fun n => if notas.contains n then 1 else 0)

/-- `MATRIZ_VECTORES`: one feature vector per record, in record order. -/
def MATRIZ (rows : List Row) : List (List ℕ) :=
  rows.map (fun r => vectorizar_notas (extraer_notas r) (VOCAB rows))

/-- Dot product of two feature vectors (numpy dot of equal-length rows). -/
def dotN (a b : List ℕ) : ℕ := (List.zipWith (· * ·) a b).sum

/-- Cosine similarity as computed by `sklearn.metrics.pairwise.cosine_similarity`
on integer 0/1 rows: `dot(a,b) / (‖a‖‖b‖)`, and `0` whenever either row has
norm 0 (sklearn's `normalize` leaves all-zero rows at zero).  Real-valued
model of the float computation. -/
noncomputable def cosineSim (a b : List ℕ) : ℝ :=
  if Real.sqrt (dotN a a) * Real.sqrt (dotN b b) = 0 then 0
  else (dotN a b : ℝ) / (Real.sqrt (dotN a a) * Real.sqrt (dotN b b))

/-- Query-side token parsing shared by the note and accord filters:
`[x.strip().lower() for x in param.split(",") if x.strip()]`. -/
def parseTokens (s : String) : List String :=
  (splitOnComma s).filterMap (fun n =>
    let t := trimStr n
    if t = "" then none else some (lowerStr t))

/-- `contiene_todas(row)` from `search_perfumes`: the row matches iff its
(recomputed) note set contains every requested token. -/
def contiene_todas (r : Row) (toks : List String) : Bool :=
  toks.all (fun t => (extraer_notas r).contains t)

/-- `contiene_todos_acordes(acordes)` from `search_perfumes`: every requested
token must equal one of the row's accords lowered (`str(a).lower()` — whole
string, not split, not stripped on the record side). -/
def contiene_todos_acordes (accords : List String) (toks : List String) : Bool :=
  toks.all (fun t => (accords.map lowerStr).contains t)

/-- The fields the API exposes (`CAMPOS_VALIDOS` in `app.py`). -/
def CAMPOS_VALIDOS : List String :=
  ["url", "perfume", "marca", "genero", "año", "salida",
   "corazon", "base", "perfumista", "perfumista 2", "main_accords"]

/-- `CAMPOS_DISPONIBLES`: the public fields actually present as columns. -/
def CAMPOS_DISPONIBLES (cols : List String) : List String :=
  CAMPOS_VALIDOS.filter (fun campo => cols.contains campo)

/-- Columns of `df` after the load phase: the raw CSV columns plus the
derived `main_accords` (line 43/48) and `todas_notas` (line 77) columns. -/
def loadColumns (rawCols : List String) : List String :=
  rawCols ++ (["main_accords", "todas_notas"].filter (fun c => ¬ rawCols.contains c))

/-- Truthiness of an optional request parameter (`None` and `""` are falsy). -/
def truthy : Option String → Bool
  | none => false
  | some s => s ≠ ""

/-- The engine's state: the catalog rows (load order = public identifier),
the dynamic column list, and the `score_similaridad` column, which does not
exist until a similarity query first assigns it (`df['score_similaridad']
= similitudes`).  The vocabulary and the vector matrix are module-level
constants computed from the rows once (`VOCAB`/`MATRIZ` above). -/
structure Engine where
  table : List Row
  cols : List String
  scoreCol : Option (List ℝ) := none

/-- Engine construction at startup (before any query ran). -/
def Engine.init (rows : List Row) (rawCols : List String) : Engine :=
  { table := rows, cols := loadColumns rawCols, scoreCol := none }

/-- Row field lookup by column name, for the five text filters and the
sortable `Row` columns. -/
def getField (r : Row) (c : String) : Option String :=
  if c = "url" then r.url
  else if c = "perfume" then r.perfume
  else if c = "marca" then r.marca
  else if c = "genero" then r.genero
  else if c = "año" then r.anio
  else if c = "salida" then r.salida
  else if c = "corazon" then r.corazon
  else if c = "base" then r.base
  else if c = "perfumista" then r.perfumista
  else none

/-- One text filter step of `search_perfumes`:
`if valor and columna in query.columns: query = query[query[columna]
.astype(str).str.contains(valor, case=False, na=False)]`.
(`astype(str)` first renders NaN as `"nan"`, so `na=False` is inert.) -/
def textFilterStep (rows : List Row) (cols : List String) (col : String)
    (v : Option String) : List Row :=
  match v with
  | none => rows
  | some s =>
    if s ≠ "" ∧ cols.contains col then
      rows.filter (fun r => containsCI (strCell (getField r col)) s)
    else rows

/-- Note-filter step (`if notas_param: ... query.apply(contiene_todas)`). -/
def noteFilterStep (rows : List Row) (v : Option String) : List Row :=
  if truthy v then rows.filter (fun r => contiene_todas r (parseTokens (v.getD "")))
  else rows

/-- Accord-filter step (`if acordes_param and 'main_accords' in query.columns`). -/
def accordFilterStep (rows : List Row) (cols : List String) (v : Option String) : List Row :=
  if truthy v ∧ cols.contains "main_accords" then
    rows.filter (fun r => contiene_todos_acordes r.main_accords (parseTokens (v.getD "")))
  else rows

/-- The sort trigger of `search_perfumes`: `if orden and orden in query.columns`. -/
def triggersSort (cols : List String) (orden : String) : Bool :=
  orden ≠ "" && cols.contains orden

/-- `query.sort_values(by=c, ascending=asc)` restricted to the `Row` columns:
pandas `nargsort` separates the NaN entries, argsorts the rest ascending
(stably, for the small-array insertion-sort regime numpy uses), reverses
that order when descending, and appends the NaN block last either way. -/
def sortByColumn (rows : List Row) (c : String) (asc : Bool) : List Row :=
  let nonNa := rows.filter (fun r => (getField r c).isSome)
  let na := rows.filter (fun r => (getField r c).isNone)
  let sorted := isortLe
    (fun a b => charsLe ((getField a c).getD "").data ((getField b c).getD "").data) nonNa
  (if asc then sorted else sorted.reverse) ++ na

/-- Sort step of `search_perfumes` (lines 166–169). -/
def sortStep (rows : List Row) (cols : List String) (orden : Option String)
    (desc : Bool) : List Row :=
  match orden with
  | none => rows
  | some o => if triggersSort cols o then sortByColumn rows o (!desc) else rows

/-- Parsed query parameters of `/perfumes/search`. -/
structure SearchParams where
  marca : Option String := none
  genero : Option String := none
  perfume : Option String := none
  perfumista : Option String := none
  anio : Option String := none   -- the request parameter named "año"
  nota : Option String := none
  acorde : Option String := none
  orden : Option String := none
  desc : Option String := none

/-- `ascendente = not request.args.get('desc', '').lower() == 'true'`. -/
def descFlag (d : Option String) : Bool := lowerStr (d.getD "") = "true"

/-- `/perfumes/search` (`search_perfumes`): works on `query = df.copy()`,
leaving the engine untouched; returns the filtered, optionally sorted rows
and their count. -/
def search_perfumes (e : Engine) (p : SearchParams) : Engine × (ℕ × List Row) :=
  let q1 := textFilterStep e.table e.cols "marca" p.marca
  let q2 := textFilterStep q1 e.cols "genero" p.genero
  let q3 := textFilterStep q2 e.cols "perfume" p.perfume
  let q4 := textFilterStep q3 e.cols "perfumista" p.perfumista
  let q5 := textFilterStep q4 e.cols "año" p.anio
  let q6 := noteFilterStep q5 p.nota
  let q7 := accordFilterStep q6 e.cols p.acorde
  let q8 := sortStep q7 e.cols p.orden (descFlag p.desc)
  (e, (q8.length, q8))

/-- `/perfumes` (`get_perfumes`): validates `pagina`/`por_pagina` (HTTP 400,
the spec's `InvalidPaginationError`), then slices `df.iloc[inicio:fin]`
and reports `total = len(df)`. -/
def get_perfumes (e : Engine) (pagina por_pagina : ℤ) :
    Engine × Except ℕ (List Row × ℕ) :=
  (e,
    if pagina < 1 ∨ por_pagina < 1 then .error 400
    else
      let inicio := ((pagina - 1) * por_pagina).toNat
      let fin := inicio + por_pagina.toNat
      .ok ((e.table.drop inicio).take (fin - inicio), e.table.length))

/-- `/perfumes/<id>` (`get_perfume`): HTTP 404 outside `0 ≤ id < len(df)`. -/
def get_perfume (e : Engine) (pid : ℤ) : Engine × Except ℕ Row :=
  (e,
    if pid < 0 ∨ (e.table.length : ℤ) ≤ pid then .error 404
    else
      match e.table.get? pid.toNat with
      | some r => .ok r
      | none => .error 404)

/-- `similares.head(top_n)`: pandas `head` keeps the first `n` rows when
`n ≥ 0` and all but the last `|n|` rows when `n < 0`; it never fails. -/
def pandasHead (l : List α) (n : ℤ) : List α :=
  if 0 ≤ n then l.take n.toNat else l.take (l.length - (-n).toNat)

/-- `df[df.index != idx_base].sort_values('score_similaridad', ascending=False)`
applied to a score vector: candidates are the indices other than `base`, in
ascending index order, each paired with its score; pandas' descending sort
argsorts ascending (stable) and reverses. -/
noncomputable def sortValuesDesc (l : List (ℕ × ℝ)) : List (ℕ × ℝ) :=
  (isortLe (fun a b => decide (a.2 ≤ b.2)) l).reverse

/-- Ranking stage of `get_similares_nombre` (lines 204–207). -/
noncomputable def rankSimilar (scores : List ℝ) (base : ℕ) : List (ℕ × ℝ) :=
  sortValuesDesc
    (((List.range scores.length).filter (fun i => i ≠ base)).map
      (fun i => (i, scores.getD i 0)))

/-- `cosine_similarity(base_vec, MATRIZ_VECTORES)[0]`: the score of each
record against record `i`. -/
noncomputable def scoresOf (rows : List Row) (i : ℕ) : List ℝ :=
  (MATRIZ rows).map (fun v => cosineSim ((MATRIZ rows).getD i []) v)

/-- Add a column name if it is not present yet (`df['c'] = ...`). -/
def addCol (cols : List String) (c : String) : List String :=
  if cols.contains c then cols else cols ++ [c]

/-- Result payload of `/perfumes/similares`: the base record's identifier and
the ranked, truncated `(identifier, score)` list.  The JSON projection of
each row and the rendering of the score as a percent string are the
transport layer. -/
structure SimOut where
  base : ℕ
  similares : List (ℕ × ℝ)

/-- `/perfumes/similares` (`get_similares_nombre`): 400 without a truthy
`nombre`, 404 without a match; otherwise takes the first row whose
`perfume` cell (NaN rendered `"nan"` by `astype(str)`) contains `nombre`
case-insensitively, computes all cosine scores, **assigns them to the
catalog as the new column `score_similaridad`** (the one state mutation in
the program), ranks the other rows and truncates with `head(top_n)`,
`top_n = int(request.args.get('n', 10))` — never validated. -/
noncomputable def get_similares (e : Engine) (nombre : Option String)
    (nParam : Option ℤ) : Engine × Except ℕ SimOut :=
  if ¬ truthy nombre then (e, .error 400)
  else
    match (e.table.enum).filter
        (fun p => containsCI (strCell p.2.perfume) (nombre.getD "")) with
    | [] => (e, .error 404)
    | (idx, _) :: _ =>
      let scores := scoresOf e.table idx
      let ranked := rankSimilar scores idx
      let top := pandasHead ranked (nParam.getD 10)
      ({ e with scoreCol := some scores,
                cols := addCol e.cols "score_similaridad" },
       .ok ⟨idx, top⟩)

/-- Round half to even (numpy's rounding mode), on the reals. -/
noncomputable def roundHE (x : ℝ) : ℤ :=
  if Int.fract x = 1/2 then (if Even ⌊x⌋ then ⌊x⌋ else ⌊x⌋ + 1) else round x

/-- The numeric content of the `similitud` column:
`(score_similaridad * 100).round(1)` — the cosine score scaled to 0–100
and rounded to one decimal.  (`astype(str) + "%"` then renders it; JSON
rendering is out of scope.) -/
noncomputable def scorePercentVal (s : ℝ) : ℝ := (roundHE (s * 100 * 10) : ℝ) / 10

/-- A loaded record as the catalog stores it: the row fields together with
the derived `todas_notas` column (`df['todas_notas'] = df.apply(extraer_notas)`). -/
structure LoadedRow where
  row : Row
  todas_notas : List String

/-- Load-phase computation of one catalog record (line 77 of `app.py`). -/
def loadRow (r : Row) : LoadedRow := ⟨r, extraer_notas r⟩

/-- Strict "score then identifier" order: `a` ranks strictly before `b`
(lower score, or equal score and lower identifier). -/
def ltScoreId (a b : ℕ × ℝ) : Prop := a.2 < b.2 ∨ (a.2 = b.2 ∧ a.1 < b.1)

/-- The three-record example catalog of spec §8:
notes {rose, musk}, {rose, vanilla}, {musk, vanilla}. -/
def r0 : Row := { perfume := some "Perfume Zero", salida := some "Rose, Musk" }

def r1 : Row := { perfume := some "Perfume One", salida := some "Rose, Vanilla" }

def r2 : Row := { perfume := some "Perfume Two", salida := some "Musk, Vanilla" }

def demoRows : List Row := [r0, r1, r2]

def demoRawCols : List String :=
  ["url", "perfume", "marca", "genero", "año", "salida",
   "corazon", "base", "perfumista", "mainaccord1"]

def demoEngine : Engine := Engine.init demoRows demoRawCols

/-! ## Generic facts about the stable insertion sort -/

theorem insertLe_perm (le : α → α → Bool) (x : α) (l : List α) :
    (insertLe le x l).Perm (x :: l) := by
  induction l with
  | nil => exact List.Perm.refl _
  | cons y ys ih =>
    simp only [insertLe]
    by_cases h : le x y
    · rw [if_pos h]
    · rw [if_neg h]
      exact (ih.cons y).trans (List.Perm.swap x y ys)

theorem isortLe_perm (le : α → α → Bool) (l : List α) :
    (isortLe le l).Perm l := by
  induction l with
  | nil => exact List.Perm.refl _
  | cons x xs ih =>
    exact (insertLe_perm le x (isortLe le xs)).trans (ih.cons x)

theorem mem_insertLe {le : α → α → Bool} {x y : α} {l : List α}
    (h : y ∈ insertLe le x l) : y = x ∨ y ∈ l := by
  have := (insertLe_perm le x l).mem_iff.mp h
  simpa using this

theorem insertLe_pairwise_ltScoreId (x : ℕ × ℝ) (l : List (ℕ × ℝ))
    (hl : l.Pairwise ltScoreId) (hx : ∀ y ∈ l, x.1 < y.1) :
    (insertLe (fun a b => decide (a.2 ≤ b.2)) x l).Pairwise ltScoreId := by
  induction l with
  | nil => simp [insertLe]
  | cons y ys ih =>
    simp only [insertLe]
    by_cases h : x.2 ≤ y.2
    · rw [if_pos (by simpa using h)]
      refine List.Pairwise.cons ?_ hl
      intro z hz
      have hxz1 : x.1 < z.1 := hx z hz
      have hxz2 : x.2 ≤ z.2 := by
        rcases List.mem_cons.mp hz with hz' | hz'
        · rw [hz']; exact h
        · have hyz := (List.pairwise_cons.mp hl).1 z hz'
          have hyz2 : y.2 ≤ z.2 := by
            rcases hyz with h' | ⟨h', _⟩
            · exact le_of_lt h'
            · exact le_of_eq h'
          exact le_trans h hyz2
      rcases lt_or_eq_of_le hxz2 with h' | h'
      · exact Or.inl h'
      · exact Or.inr ⟨h', hxz1⟩
    · rw [if_neg (by simpa using h)]
      have hyx : y.2 < x.2 := lt_of_not_le h
      refine List.Pairwise.cons ?_ (ih (List.pairwise_cons.mp hl).2
        (fun z hz => hx z (by simp [hz])))
      intro z hz
      rcases mem_insertLe hz with hz | hz
      · subst hz; exact Or.inl hyx
      · exact (List.pairwise_cons.mp hl).1 z hz

theorem isortLe_pairwise_ltScoreId (l : List (ℕ × ℝ))
    (hl : l.Pairwise (fun a b => a.1 < b.1)) :
    (isortLe (fun a b => decide (a.2 ≤ b.2)) l).Pairwise ltScoreId := by
  induction l with
  | nil => simp [isortLe]
  | cons x xs ih =>
    refine insertLe_pairwise_ltScoreId x _ (ih (List.pairwise_cons.mp hl).2) ?_
    intro y hy
    have : y ∈ xs := (isortLe_perm _ xs).mem_iff.mp hy
    exact (List.pairwise_cons.mp hl).1 y this

/-! ## C4 — pagination -/

/-- C4: for `page ≥ 1` and `page_size ≥ 1`, `get_perfumes` returns exactly
`records[(page-1)*page_size : page*page_size]` (clamped; empty beyond the
end, not an error) together with the total catalog count, the slice length
is at most `page_size`; for `page < 1` or `page_size < 1` it fails with
HTTP 400 (the spec's `InvalidPaginationError`). -/
theorem C4_paginate (e : Engine) (page size : ℤ) :
    (1 ≤ page → 1 ≤ size →
      (get_perfumes e page size).2 =
        .ok ((e.table.drop ((page - 1) * size).toNat).take size.toNat, e.table.length) ∧
      ((e.table.drop ((page - 1) * size).toNat).take size.toNat).length ≤ size.toNat ∧
      ((e.table.length : ℤ) ≤ (page - 1) * size →
        (e.table.drop ((page - 1) * size).toNat).take size.toNat = [])) ∧
    (page < 1 ∨ size < 1 → (get_perfumes e page size).2 = .error 400) := by
  constructor
  · intro hp hs
    have hcond : ¬ (page < 1 ∨ size < 1) := by omega
    refine ⟨?_, ?_, ?_⟩
    · simp only [get_perfumes, if_neg hcond]
      rw [Nat.add_sub_cancel_left]
    · exact List.length_take_le _ _
    · intro hlen
      have h1 : e.table.length ≤ ((page - 1) * size).toNat := by
        have h2 : (0 : ℤ) ≤ (page - 1) * size :=
          mul_nonneg (by omega) (by omega)
        omega
      have : e.table.drop ((page - 1) * size).toNat = [] := by
        rw [List.drop_eq_nil_iff]
        exact h1
      rw [this, List.take_nil]
  · intro h
    simp only [get_perfumes, if_pos h]

/-- Witness for C4 at the spec's concrete example shape: page 2, size 2 on
the three-record demo catalog; hypotheses `1 ≤ 2` discharged. -/
theorem C4_paginate_witness :
    (get_perfumes demoEngine 2 2).2 =
        .ok ((demoEngine.table.drop (((2 : ℤ) - 1) * 2).toNat).take (2 : ℤ).toNat,
          demoEngine.table.length) ∧
      ((demoEngine.table.drop (((2 : ℤ) - 1) * 2).toNat).take (2 : ℤ).toNat).length ≤
        (2 : ℤ).toNat ∧
      ((demoEngine.table.length : ℤ) ≤ ((2 : ℤ) - 1) * 2 →
        (demoEngine.table.drop (((2 : ℤ) - 1) * 2).toNat).take (2 : ℤ).toNat = []) :=
  (C4_paginate demoEngine 2 2).1 (by norm_num) (by norm_num)

/-! ## C5 — note filter -/

/-- C5: a record matches the note filter iff its note set contains every
trimmed, lowercased token; matching a multi-token filter is matching every
token as a single-token filter; a filter whose tokens are all blank after
trimming is a no-op on the candidate list. -/
theorem C5_note_filter (r : Row) (s : String) :
    (contiene_todas r (parseTokens s) = true ↔
      ∀ t ∈ parseTokens s, t ∈ extraer_notas r) ∧
    (contiene_todas r (parseTokens s) = true ↔
      ∀ t ∈ parseTokens s, contiene_todas r [t] = true) ∧
    (∀ rows : List Row, parseTokens s = [] → noteFilterStep rows (some s) = rows) := by
  have h1 : ∀ toks : List String, contiene_todas r toks = true ↔
      ∀ t ∈ toks, t ∈ extraer_notas r := by
    intro toks
    simp [contiene_todas, List.all_eq_true]
  refine ⟨h1 _, ?_, ?_⟩
  · constructor
    · intro h t ht
      rw [h1 [t]]
      intro u hu
      rw [List.mem_singleton.mp hu]
      exact (h1 (parseTokens s)).mp h t ht
    · intro h
      rw [h1 (parseTokens s)]
      intro t ht
      exact (h1 [t]).mp (h t ht) t (List.mem_singleton.mpr rfl)
  · intro rows hs
    by_cases he : s = ""
    · subst he; simp [noteFilterStep, truthy]
    · simp only [noteFilterStep, truthy]
      rw [if_pos (by simpa using he)]
      simp [contiene_todas, hs]

/-- Witness for C5: the all-blank filter `" , "` parses to no tokens and
leaves the demo candidate list unchanged. -/
theorem C5_note_filter_witness : noteFilterStep [r0, r1, r2] (some " , ") = [r0, r1, r2] :=
  (C5_note_filter r0 " , ").2.2 [r0, r1, r2] (by decide)

/-! ## C6 — accord filter -/

/-- C6: a record matches the accord filter iff every requested accord
(trimmed, lowercased) is equal — case-insensitively, as a whole string,
not split into tokens or substring-matched — to some element of the
record's `main_accords`, all requested accords being required. -/
theorem C6_accord_filter (r : Row) (s : String) :
    contiene_todos_acordes r.main_accords (parseTokens s) = true ↔
      ∀ t ∈ parseTokens s, ∃ a ∈ r.main_accords, lowerStr a = t := by
  simp [contiene_todos_acordes, List.all_eq_true]

/-! ## C8 — sort-field permissiveness -/

/-- C8 (amended): an unrecognized sort field leaves the sequence unchanged
with no error, but the set of fields that trigger sorting is the table's
column set (`orden in query.columns`), which strictly contains the public
field names: the internal derived column `todas_notas` always triggers
sorting yet is never public. -/
theorem C8_sort_field (rows : List Row) (cols : List String) (o : String)
    (d : Bool) (raw : List String) :
    (sortStep rows cols none d = rows) ∧
    (triggersSort cols o = false → sortStep rows cols (some o) d = rows) ∧
    (triggersSort cols o = true ↔ o ≠ "" ∧ o ∈ cols) ∧
    ("todas_notas" ∈ loadColumns raw ∧
      "todas_notas" ∉ CAMPOS_DISPONIBLES (loadColumns raw)) := by
  refine ⟨rfl, ?_, ?_, ?_, ?_⟩
  · intro h
    simp only [sortStep, h]
    rfl
  · simp [triggersSort]
  · by_cases h : "todas_notas" ∈ raw
    · exact List.mem_append_left _ h
    · refine List.mem_append_right _ ?_
      simp [h]
  · intro hmem
    have : "todas_notas" ∈ CAMPOS_VALIDOS := List.mem_of_mem_filter hmem
    simp [CAMPOS_VALIDOS] at this

/-- Counterexample for C8 as stated: on the demo catalog's columns,
`todas_notas` triggers sorting but is not a public field name, so the
trigger set is not the public field set. -/
theorem C8_sort_field_cex :
    triggersSort (loadColumns demoRawCols) "todas_notas" = true ∧
      "todas_notas" ∉ CAMPOS_DISPONIBLES (loadColumns demoRawCols) := by decide

/-- Witness for C8: a field in no column set leaves the list unchanged. -/
theorem C8_sort_field_witness :
    sortStep [r0, r1, r2] (loadColumns demoRawCols) (some "zzz") false = [r0, r1, r2] :=
  (C8_sort_field [r0, r1, r2] (loadColumns demoRawCols) "zzz" false demoRawCols).2.1
    (by decide)

/-! ## C10 — stored vs. recomputed note sets -/

/-- C10: for a record built by the load phase (its stored `todas_notas`
column is `extraer_notas` of its fields), the note set recomputed at
filter time equals the stored set, and the filter's per-row recomputation
agrees with a membership test against the stored column. -/
theorem C10_stored_notes (lr : LoadedRow) (toks : List String)
    (h : lr.todas_notas = extraer_notas lr.row) :
    (extraer_notas lr.row).toFinset = lr.todas_notas.toFinset ∧
    contiene_todas lr.row toks = toks.all (fun t => lr.todas_notas.contains t) := by
  rw [h]
  exact ⟨rfl, rfl⟩

/-- Witness for C10 on a concrete loaded record. -/
theorem C10_stored_notes_witness :
    (extraer_notas (loadRow r0).row).toFinset = (loadRow r0).todas_notas.toFinset ∧
    contiene_todas (loadRow r0).row ["rose", "musk"] =
      (["rose", "musk"]).all (fun t => (loadRow r0).todas_notas.contains t) :=
  C10_stored_notes (loadRow r0) ["rose", "musk"] rfl

/-! ## C7 — cosine similarity bounds -/

theorem cs_cons (x y A B d : ℤ) (hA : 0 ≤ A) (hB : 0 ≤ B) (h : d ^ 2 ≤ A * B) :
    (x * y + d) ^ 2 ≤ (x * x + A) * (y * y + B) := by
  have h4 : (2 * (x * y * d)) ^ 2 ≤ (x * x * B + y * y * A) ^ 2 := by
    have h5 : (0 : ℤ) ≤ 4 * (x ^ 2 * y ^ 2) :=
      mul_nonneg (by norm_num) (mul_nonneg (sq_nonneg x) (sq_nonneg y))
    nlinarith [sq_nonneg (x * x * B - y * y * A), mul_le_mul_of_nonneg_left h h5]
  have key : 2 * (x * y * d) ≤ x * x * B + y * y * A := by
    refine le_of_pow_le_pow_left₀ two_ne_zero ?_ h4
    exact add_nonneg (mul_nonneg (mul_self_nonneg x) hB)
      (mul_nonneg (mul_self_nonneg y) hA)
  nlinarith [key, h]

/-- Cauchy–Schwarz for the binary dot product, by induction on the rows. -/
theorem dotN_sq_le (a b : List ℕ) : dotN a b ^ 2 ≤ dotN a a * dotN b b := by
  induction a generalizing b with
  | nil => simp [dotN]
  | cons x as ih =>
    cases b with
    | nil => simp [dotN]
    | cons y bs =>
      have ihb := ih bs
      have e1 : dotN (x :: as) (y :: bs) = x * y + dotN as bs := rfl
      have e2 : dotN (x :: as) (x :: as) = x * x + dotN as as := rfl
      have e3 : dotN (y :: bs) (y :: bs) = y * y + dotN bs bs := rfl
      have hZ : ((dotN (x :: as) (y :: bs) : ℤ)) ^ 2 ≤
          (dotN (x :: as) (x :: as) : ℤ) * (dotN (y :: bs) (y :: bs) : ℤ) := by
        rw [e1, e2, e3]
        push_cast
        refine cs_cons _ _ _ _ _ (by positivity) (by positivity) ?_
        exact_mod_cast ihb
      exact_mod_cast hZ

theorem cosineSim_nonneg (a b : List ℕ) : 0 ≤ cosineSim a b := by
  unfold cosineSim
  split
  · exact le_refl 0
  · next h =>
    have h1 : (0 : ℝ) ≤ Real.sqrt (dotN a a) * Real.sqrt (dotN b b) :=
      mul_nonneg (Real.sqrt_nonneg _) (Real.sqrt_nonneg _)
    exact div_nonneg (by positivity) h1

theorem cosineSim_le_one (a b : List ℕ) : cosineSim a b ≤ 1 := by
  unfold cosineSim
  split
  · norm_num
  · next h =>
    have h1 : (0 : ℝ) ≤ Real.sqrt (dotN a a) * Real.sqrt (dotN b b) :=
      mul_nonneg (Real.sqrt_nonneg _) (Real.sqrt_nonneg _)
    have hpos : (0 : ℝ) < Real.sqrt (dotN a a) * Real.sqrt (dotN b b) :=
      lt_of_le_of_ne h1 (Ne.symm h)
    rw [div_le_one hpos, ← Real.sqrt_mul (by positivity)]
    refine (Real.le_sqrt (by positivity) (by positivity)).mpr ?_
    exact_mod_cast dotN_sq_le a b

theorem cosineSim_zero_of_norm_zero (a b : List ℕ)
    (h : dotN a a = 0 ∨ dotN b b = 0) : cosineSim a b = 0 := by
  unfold cosineSim
  rw [if_pos]
  rcases h with h | h <;> rw [h] <;> simp

theorem cosineSim_self (a : List ℕ) (h : dotN a a ≠ 0) : cosineSim a a = 1 := by
  unfold cosineSim
  have hA : (0 : ℝ) < (dotN a a : ℝ) := by
    have : 0 < dotN a a := Nat.pos_of_ne_zero h
    exact_mod_cast this
  have hs : Real.sqrt (dotN a a) * Real.sqrt (dotN a a) = (dotN a a : ℝ) :=
    Real.mul_self_sqrt (le_of_lt hA)
  rw [if_neg (by rw [hs]; exact ne_of_gt hA), hs]
  exact div_self (ne_of_gt hA)

/-- C7: the similarity score is `dot(a,b)/(‖a‖·‖b‖)` with `‖v‖ = √(v·v)`,
lies in `[0, 1]`, is `0` by convention when either norm is `0`, and a
nonzero vector scores exactly `1` against itself. -/
theorem C7_cosine (a b : List ℕ) :
    0 ≤ cosineSim a b ∧ cosineSim a b ≤ 1 ∧
    (dotN a a = 0 ∨ dotN b b = 0 → cosineSim a b = 0) ∧
    (dotN a a ≠ 0 → dotN b b ≠ 0 →
      cosineSim a b =
        (dotN a b : ℝ) / (Real.sqrt (dotN a a) * Real.sqrt (dotN b b))) ∧
    (dotN a a ≠ 0 → cosineSim a a = 1) := by
  refine ⟨cosineSim_nonneg a b, cosineSim_le_one a b,
    cosineSim_zero_of_norm_zero a b, ?_, cosineSim_self a⟩
  intro ha hb
  unfold cosineSim
  rw [if_neg]
  intro hc
  rcases mul_eq_zero.mp hc with hc | hc <;>
    rw [Real.sqrt_eq_zero (by positivity)] at hc <;>
    [exact ha (by exact_mod_cast hc); exact hb (by exact_mod_cast hc)]

/-- Witness for C7: the one-hot vector `[1, 0]` scores exactly 1 against
itself (hypothesis `dotN ≠ 0` discharged by evaluation). -/
theorem C7_cosine_witness : cosineSim [1, 0] [1, 0] = 1 :=
  (C7_cosine [1, 0] [1, 0]).2.2.2.2 (by decide)

/-! ## C9 — percent scaling and rounding -/

theorem roundHE_abs_sub (x : ℝ) : |(roundHE x : ℝ) - x| ≤ 1 / 2 := by
  unfold roundHE
  split
  · next hf =>
    have hx : x = (⌊x⌋ : ℝ) + 1 / 2 := by
      have := Int.fract_add_floor x
      rw [hf] at this
      linarith
    split
    · rw [hx, abs_le]
      constructor
      · norm_num
      · norm_num
    · push_cast
      rw [hx, abs_le]
      constructor
      · norm_num
      · norm_num
  · rw [abs_sub_comm]
    exact abs_sub_round x

theorem roundHE_nonneg (x : ℝ) (hx : 0 ≤ x) : 0 ≤ roundHE x := by
  unfold roundHE
  have hfl : (0 : ℤ) ≤ ⌊x⌋ := Int.floor_nonneg.mpr hx
  split
  · split
    · exact hfl
    · omega
  · rw [round_eq]
    exact Int.floor_nonneg.mpr (by linarith)

theorem roundHE_le (x : ℝ) (n : ℤ) (hx : x ≤ n) : roundHE x ≤ n := by
  unfold roundHE
  split
  · next hf =>
    have hxeq : x = (⌊x⌋ : ℝ) + 1 / 2 := by
      have := Int.fract_add_floor x
      rw [hf] at this
      linarith
    have hlt : (⌊x⌋ : ℝ) < (n : ℝ) := by
      rw [hxeq] at hx
      linarith
    have hZ : ⌊x⌋ < n := by exact_mod_cast hlt
    split
    · omega
    · omega
  · rw [round_eq]
    have h1 : x + 1 / 2 ≤ (n : ℝ) + 1 / 2 := by linarith
    have h2 : ⌊x + 1 / 2⌋ ≤ ⌊(n : ℝ) + 1 / 2⌋ := Int.floor_le_floor h1
    have h3 : ⌊(n : ℝ) + 1 / 2⌋ = n := by
      rw [Int.floor_eq_iff]
      refine ⟨by linarith, ?_⟩
      have : ((n + 1 : ℤ) : ℝ) = (n : ℝ) + 1 := by push_cast; ring
      linarith [this]
    omega

/-- C9: the numeric value of `score_percent` — `(score * 100).round(1)` —
lies in `[0, 100]`, is an integer multiple of one tenth (rounded to one
decimal place), and is within half of one tenth of the scaled cosine
score. -/
theorem C9_score_percent (a b : List ℕ) :
    0 ≤ scorePercentVal (cosineSim a b) ∧
    scorePercentVal (cosineSim a b) ≤ 100 ∧
    (∃ k : ℤ, scorePercentVal (cosineSim a b) = (k : ℝ) / 10) ∧
    |scorePercentVal (cosineSim a b) - cosineSim a b * 100| ≤ 1 / 20 := by
  have hs0 : 0 ≤ cosineSim a b := cosineSim_nonneg a b
  have hs1 : cosineSim a b ≤ 1 := cosineSim_le_one a b
  have hy0 : 0 ≤ cosineSim a b * 100 * 10 := by linarith
  have hy1 : cosineSim a b * 100 * 10 ≤ ((1000 : ℤ) : ℝ) := by push_cast; linarith
  refine ⟨?_, ?_, ⟨roundHE (cosineSim a b * 100 * 10), rfl⟩, ?_⟩
  · unfold scorePercentVal
    have := roundHE_nonneg _ hy0
    positivity
  · unfold scorePercentVal
    rw [div_le_iff₀ (by norm_num)]
    have h := roundHE_le _ 1000 hy1
    calc (roundHE (cosineSim a b * 100 * 10) : ℝ) ≤ ((1000 : ℤ) : ℝ) := by
          exact_mod_cast h
      _ = 100 * 10 := by norm_num
  · unfold scorePercentVal
    set y := cosineSim a b * 100 * 10 with hy
    have habs := roundHE_abs_sub y
    rw [show cosineSim a b * 100 = y / 10 by rw [hy]; ring,
      div_sub_div_same, abs_div, show |(10 : ℝ)| = 10 by norm_num]
    linarith [habs]

/-! ## C2 — similarity ranking -/

/-- C2 (amended): for every score vector and base identifier, the ranking
stage returns exactly the records other than the base record, each paired
with its own score, ordered by score descending — but ties are broken by
**descending** record identifier (pandas reverses a stable ascending
argsort for `ascending=False`), not ascending as claimed. -/
theorem C2_rank_similar (scores : List ℝ) (base : ℕ) :
    ((rankSimilar scores base).map Prod.fst).Perm
      ((List.range scores.length).filter (fun i => i ≠ base)) ∧
    (∀ p ∈ rankSimilar scores base,
      p.2 = scores.getD p.1 0 ∧ p.1 < scores.length ∧ p.1 ≠ base) ∧
    (rankSimilar scores base).Pairwise (fun a b => ltScoreId b a) := by
  set cand := ((List.range scores.length).filter (fun i => i ≠ base)).map
    (fun i => (i, scores.getD i 0)) with hcand
  have hperm : (rankSimilar scores base).Perm cand := by
    unfold rankSimilar sortValuesDesc
    exact (List.reverse_perm _).trans (isortLe_perm _ _)
  refine ⟨?_, ?_, ?_⟩
  · have h1 : ((rankSimilar scores base).map Prod.fst).Perm (cand.map Prod.fst) :=
      hperm.map Prod.fst
    have h2 : cand.map Prod.fst =
        (List.range scores.length).filter (fun i => i ≠ base) := by
      rw [hcand, List.map_map]
      exact List.map_id _
    rw [h2] at h1
    exact h1
  · intro p hp
    have hp' : p ∈ cand := hperm.mem_iff.mp hp
    rw [hcand] at hp'
    rcases List.mem_map.mp hp' with ⟨i, hi, rfl⟩
    have hi' := List.mem_filter.mp hi
    refine ⟨rfl, List.mem_range.mp hi'.1, by simpa using hi'.2⟩
  · unfold rankSimilar sortValuesDesc
    rw [List.pairwise_reverse]
    refine isortLe_pairwise_ltScoreId _ ?_
    refine List.Pairwise.map _ (fun i j h => h) ?_
    exact ((List.pairwise_lt_range _).sublist (List.filter_sublist _))

/-- Witness for C2 on a concrete two-record score vector: the single
non-base entry carries its own score and identifier. -/
theorem C2_rank_similar_witness :
    ((1 : ℕ), (0 : ℝ)).2 = [(1 : ℝ), 0].getD ((1 : ℕ), (0 : ℝ)).1 0 ∧
    ((1 : ℕ), (0 : ℝ)).1 < [(1 : ℝ), 0].length ∧ ((1 : ℕ), (0 : ℝ)).1 ≠ 0 :=
  (C2_rank_similar [(1 : ℝ), 0] 0).2.1 (1, 0)
    (by rw [show rankSimilar [(1 : ℝ), 0] 0 = [(1, (0 : ℝ))] from rfl]; simp)

/-- Counterexample for C2 as stated: on the spec's own three-record
example catalog, records 1 and 2 tie in cosine score against record 0,
and the code returns them in descending identifier order `[2, 1]`, not
the ascending `[1, 2]` the claim requires. -/
theorem C2_rank_similar_cex :
    (scoresOf demoRows 0).getD 1 0 = (scoresOf demoRows 0).getD 2 0 ∧
    ((rankSimilar (scoresOf demoRows 0) 0).map Prod.fst) = [2, 1] ∧
    ((rankSimilar (scoresOf demoRows 0) 0).map Prod.fst) ≠ [1, 2] := by
  have hm : MATRIZ demoRows = [[1, 1, 0], [0, 1, 1], [1, 0, 1]] := by decide
  have hs : scoresOf demoRows 0 =
      [cosineSim [1, 1, 0] [1, 1, 0], cosineSim [1, 1, 0] [0, 1, 1],
        cosineSim [1, 1, 0] [1, 0, 1]] := by
    unfold scoresOf
    rw [hm]
    rfl
  have tie : cosineSim [1, 1, 0] [0, 1, 1] = cosineSim [1, 1, 0] [1, 0, 1] := by
    unfold cosineSim
    norm_num [show dotN [1, 1, 0] [0, 1, 1] = 1 from rfl,
      show dotN [1, 1, 0] [1, 0, 1] = 1 from rfl,
      show dotN [0, 1, 1] [0, 1, 1] = 2 from rfl,
      show dotN [1, 0, 1] [1, 0, 1] = 2 from rfl]
  refine ⟨?_, ?_, ?_⟩
  · rw [hs]
    simpa using tie
  · rw [hs]
    unfold rankSimilar sortValuesDesc
    rw [show (List.range
        ([cosineSim [1, 1, 0] [1, 1, 0], cosineSim [1, 1, 0] [0, 1, 1],
          cosineSim [1, 1, 0] [1, 0, 1]].length)).filter (fun i => i ≠ 0) =
        [1, 2] from rfl]
    simp only [List.map_cons, List.map_nil, List.getD, isortLe, insertLe]
    rw [if_pos (by simpa using le_of_eq tie)]
    rfl
  · rw [hs]
    unfold rankSimilar sortValuesDesc
    rw [show (List.range
        ([cosineSim [1, 1, 0] [1, 1, 0], cosineSim [1, 1, 0] [0, 1, 1],
          cosineSim [1, 1, 0] [1, 0, 1]].length)).filter (fun i => i ≠ 0) =
        [1, 2] from rfl]
    simp only [List.map_cons, List.map_nil, List.getD, isortLe, insertLe]
    rw [if_pos (by simpa using le_of_eq tie)]
    simp

/-! ## C1 — engine-state immutability -/

/-- C1 (amended): listing, single lookup and search leave the engine state
unchanged and are pure functions of their arguments; the catalog rows —
hence the derived vocabulary and similarity matrix — are preserved by
every query; but the similarity query is *not* state-preserving: it
assigns the `score_similaridad` column on the shared catalog table. -/
theorem C1_engine_state (e : Engine) (pg sz pid : ℤ) (sp : SearchParams)
    (nom : Option String) (n : Option ℤ) :
    (get_perfumes e pg sz).1 = e ∧
    (get_perfume e pid).1 = e ∧
    (search_perfumes e sp).1 = e ∧
    (get_similares e nom n).1.table = e.table ∧
    VOCAB (get_similares e nom n).1.table = VOCAB e.table ∧
    MATRIZ (get_similares e nom n).1.table = MATRIZ e.table := by
  have ht : (get_similares e nom n).1.table = e.table := by
    unfold get_similares
    split
    · rfl
    · split
      · rfl
      · rfl
  exact ⟨rfl, rfl, rfl, ht, by rw [ht], by rw [ht]⟩

/-- Counterexample for C1 as stated: on the demo catalog a similarity
query changes the engine state (the score column appears), so not every
query leaves all engine state unchanged. -/
theorem C1_engine_state_cex :
    (get_similares demoEngine (some "per") none).1 ≠ demoEngine := by
  have hf : (demoEngine.table.enum).filter
      (fun p => containsCI (strCell p.2.perfume) ((some "per").getD "")) =
      [(0, r0), (1, r1), (2, r2)] := by decide
  have hsc : (get_similares demoEngine (some "per") none).1.scoreCol =
      some (scoresOf demoEngine.table 0) := by
    unfold get_similares
    rw [if_neg (by decide), hf]
  intro h
  rw [h] at hsc
  simp [demoEngine, Engine.init] at hsc

/-! ## C3 — top_n truncation -/

/-- C3 (amended): `top_n` defaults to 10 when the `n` parameter is absent,
and the result is truncated with pandas `head(top_n)`; but `top_n < 1` is
*not* rejected: no `InvalidArgumentError` exists — `head(0)` yields an
empty list and a negative `top_n` yields all but the last `|top_n|`
entries.  For `top_n ≥ 0` the returned list has at most `top_n` entries. -/
theorem C3_top_n (e : Engine) (nom : Option String) (n : ℤ) (l : List (ℕ × ℝ)) :
    (get_similares e nom none = get_similares e nom (some 10)) ∧
    ((get_similares e nom (some n)).2 = ((get_similares e nom (some 1)).2).map
      (fun o => ⟨o.base, pandasHead (rankSimilar (scoresOf e.table o.base) o.base) n⟩)) ∧
    (0 ≤ n → (pandasHead l n).length ≤ n.toNat) ∧
    (n < 0 → pandasHead l n = l.take (l.length - (-n).toNat)) := by
  refine ⟨rfl, ?_, ?_, ?_⟩
  · by_cases hc : truthy nom
    · unfold get_similares
      rw [if_neg (by simpa using hc), if_neg (by simpa using hc)]
      rcases hm : (e.table.enum).filter
          (fun p => containsCI (strCell p.2.perfume) (nom.getD "")) with _ | ⟨⟨idx, r⟩, rest⟩
      · rw [hm]
        rfl
      · rw [hm]
        rfl
    · unfold get_similares
      rw [if_pos (by simpa using hc), if_pos (by simpa using hc)]
      simp [Except.map]
  · intro h0
    unfold pandasHead
    rw [if_pos h0]
    exact List.length_take_le _ _
  · intro hneg
    unfold pandasHead
    rw [if_neg (by omega)]

/-- Witness for C3: the length bound at `top_n = 5`, hypothesis `0 ≤ 5`
discharged. -/
theorem C3_top_n_witness :
    (pandasHead ([] : List (ℕ × ℝ)) 5).length ≤ (5 : ℤ).toNat :=
  (C3_top_n demoEngine none 5 []).2.2.1 (by norm_num)

/-- Counterexample for C3 as stated: `top_n = 0 < 1` does not fail — the
similarity query succeeds and returns the empty list. -/
theorem C3_top_n_cex :
    (get_similares demoEngine (some "per") (some 0)).2 = .ok ⟨0, []⟩ := by
  have hf : (demoEngine.table.enum).filter
      (fun p => containsCI (strCell p.2.perfume) ((some "per").getD "")) =
      [(0, r0), (1, r1), (2, r2)] := by decide
  unfold get_similares
  rw [if_neg (by decide), hf]
  simp [pandasHead]
